import Mathlib

/-!
Verification of the `haier_hon` Home Assistant integration (switch platform and
config-entry setup) against its natural-language specification.

The two source files `custom_components/hon/__init__.py` and
`custom_components/hon/switch.py` are shallowly embedded below:

* device attributes and the settings dictionary become association lists on
  `String` keys (Python dict indexing that can raise `KeyError` is modelled
  with `Option`);
* the pyhon parameter class hierarchy (`HonParameter` base class,
  `HonParameterRange`, and the remaining subclasses) is modelled by a `kind`
  tag on the setting; `type(setting) == HonParameter` is the check
  `kind = ParamKind.base` and `isinstance(setting, HonParameterRange)` is the
  check `kind = ParamKind.range`;
* external effects (sending a command, scheduling on the event loop, writing
  HA state, updating the coordinator) become an emitted trace of `HaEvent`s;
* exceptions become `Except PyErr`.
-/

namespace HaierHon

/-- A Python value as stored in device data or a parameter: an int, a string
or a bool (the only shapes these two files compare against). -/
inductive Value where
  | int : Int → Value
  | str : String → Value
  | bool : Bool → Value
  deriving DecidableEq, Repr

/-- The pyhon parameter classes that `switch.py` distinguishes:
`base` is exactly `HonParameter`, `range` is `HonParameterRange`, and
`enum`/`fixed`/`program` are the remaining subclasses (whose precise identity
the switch code never inspects). -/
inductive ParamKind where
  | base | range | enum | fixed | program
  deriving DecidableEq, Repr

/-- A device setting (a pyhon parameter object): its class tag, current
value, `min`/`max` bounds, whether the object has a `min` attribute
(`hasattr(setting, "min")` in `HonConfigSwitchEntity.is_on`), and for range
parameters the list of allowed values. -/
structure Setting where
  kind : ParamKind
  value : Value
  min : Value := Value.int 0
  max : Value := Value.int 1
  hasMin : Bool := false
  values : List Value := []
  deriving DecidableEq, Repr

/-- Association-list lookup, first match wins (Python dict lookup). -/
def lookupA {α : Type} : List (String × α) → String → Option α
  | [], _ => none
  | (k, v) :: rest, key => if k = key then some v else lookupA rest key

/-- Association-list update: replace the first binding of the key, append a
new binding when absent (Python dict assignment). -/
def updateA {α : Type} : List (String × α) → String → α → List (String × α)
  | [], key, v => [(key, v)]
  | (k, w) :: rest, key, v =>
      if k = key then (key, v) :: rest else (k, w) :: updateA rest key v

theorem lookupA_updateA_self {α : Type} (l : List (String × α)) (key : String) (v : α) :
    lookupA (updateA l key v) key = some v := by
  induction l with
  | nil => simp [updateA, lookupA]
  | cons hd tl ih =>
    obtain ⟨k, w⟩ := hd
    by_cases hk : k = key
    · simp [updateA, hk, lookupA]
    · simp [updateA, hk, lookupA, ih]

theorem lookupA_updateA_other {α : Type} (l : List (String × α)) (key other : String)
    (v : α) (h : other ≠ key) : lookupA (updateA l key v) other = lookupA l other := by
  have h2 : ¬ key = other := fun hh => h hh.symm
  induction l with
  | nil => simp [updateA, lookupA, h2]
  | cons hd tl ih =>
    obtain ⟨k, w⟩ := hd
    by_cases hk : k = key
    · subst hk
      simp [updateA, lookupA, h2]
    · simp [updateA, hk, lookupA, ih]

/-- An appliance as the switch platform sees it: its vendor type string, the
flat attribute data read by `device.get`, the `settings` dictionary, the
`available_settings` key list, the names of the available commands, and the
connection flag. -/
structure Device where
  applianceType : String := ""
  data : List (String × Value) := []
  settings : List (String × Setting) := []
  availableSettings : List String := []
  commands : List String := []
  connection : Bool := true
  deriving DecidableEq, Repr

/-- `device.get(key, default)` — lookup in the device data with a default. -/
def Device.get (d : Device) (key : String) (default : Value) : Value :=
  (lookupA d.data key).getD default

/-- `device.get(key)` with the implicit `None` default. -/
def Device.getOpt (d : Device) (key : String) : Option Value :=
  lookupA d.data key

/-- The externally observable effects an entity method performs, in order. -/
inductive HaEvent where
  /-- `self.async_write_ha_state()` -/
  | writeHaState
  /-- `await self._device.commands[name].send()` -/
  | sendCommand : String → HaEvent
  /-- `self.coordinator.async_set_updated_data({})` run directly -/
  | coordinatorUpdate
  /-- `self._device.sync_command(cmd, target)` -/
  | syncCommand : String → String → HaEvent
  /-- assignment `self._device.attributes[key] = value` -/
  | setAttr : String → Value → HaEvent
  /-- `hass.loop.call_soon_threadsafe(fun)` scheduling an effect on the loop -/
  | scheduleOnLoop : HaEvent → HaEvent
  deriving DecidableEq, Repr

/-! ### HonSwitchEntity -/

/-- `HonSwitchEntity.is_on`: `self._device.get(self.entity_description.key, 0) == 1`. -/
def honSwitchIsOn (dev : Device) (key : String) : Bool :=
  dev.get key (Value.int 0) == Value.int 1

/-- `HonSwitchEntity.async_turn_on`: look up `settings["settings.<key>"]`
(`none` models the `KeyError`), return early when the setting is exactly a
`HonParameter`, otherwise assign `max` (range) or `1`, write HA state, send
the `settings` command, and update the coordinator. -/
def honSwitchTurnOn (dev : Device) (key : String) : Option (Device × List HaEvent) :=
  match lookupA dev.settings (String.append "settings." key) with
  | none => none
  | some setting =>
    if setting.kind = ParamKind.base then
      some (dev, [])
    else
      let newVal := if setting.kind = ParamKind.range then setting.max else Value.int 1
      some ({ dev with settings := (updateA dev.settings (String.append "settings." key)
                ({ setting with value := newVal })) },
            [HaEvent.writeHaState, HaEvent.sendCommand "settings", HaEvent.coordinatorUpdate])

/-- `HonSwitchEntity.async_turn_off`: as `async_turn_on` but assigning
`min` (range) or `0`. -/
def honSwitchTurnOff (dev : Device) (key : String) : Option (Device × List HaEvent) :=
  match lookupA dev.settings (String.append "settings." key) with
  | none => none
  | some setting =>
    if setting.kind = ParamKind.base then
      some (dev, [])
    else
      let newVal := if setting.kind = ParamKind.range then setting.min else Value.int 0
      some ({ dev with settings := (updateA dev.settings (String.append "settings." key)
                ({ setting with value := newVal })) },
            [HaEvent.writeHaState, HaEvent.sendCommand "settings", HaEvent.coordinatorUpdate])

/-- `HonSwitchEntity.available`: false when `super().available` is false, when
`remoteCtrValid` (default `1`) is not `1`, when the last connection event
category is `"DISCONNECTED"`, or when the setting is a range with fewer than
two values; `none` models the `KeyError` on a missing setting. -/
def honSwitchAvailable (superAvail : Bool) (dev : Device) (key : String) : Option Bool :=
  if !superAvail then some false
  else if !(dev.get "remoteCtrValid" (Value.int 1) == Value.int 1) then some false
  else if dev.getOpt "attributes.lastConnEvent.category" == some (Value.str "DISCONNECTED") then
    some false
  else
    match lookupA dev.settings (String.append "settings." key) with
    | none => none
    | some s => some (!(s.kind == ParamKind.range && decide (s.values.length < 2)))

/-! ### HonControlSwitchEntity -/

/-- A `HonControlSwitchEntityDescription`'s fields used by the entity. -/
structure ControlDesc where
  key : String
  turnOnKey : String
  turnOffKey : String
  deriving DecidableEq, Repr

/-- `HonControlSwitchEntity.is_on`: `self._device.get(key, False)` returned
as-is (a raw device value, `False` when absent). -/
def honControlIsOn (dev : Device) (key : String) : Value :=
  dev.get key (Value.bool false)

/-- `HonControlSwitchEntity.async_turn_on`: `sync_command(turn_on_key,
"settings")`, coordinator update, send the `turn_on_key` command, set
`attributes[key] = True`, write HA state. -/
def honControlTurnOn (dev : Device) (d : ControlDesc) : Device × List HaEvent :=
  ({ dev with data := updateA dev.data d.key (Value.bool true) },
   [HaEvent.syncCommand d.turnOnKey "settings", HaEvent.coordinatorUpdate,
    HaEvent.sendCommand d.turnOnKey, HaEvent.setAttr d.key (Value.bool true),
    HaEvent.writeHaState])

/-- `HonControlSwitchEntity.async_turn_off`: as turn_on with `turn_off_key`
and `False`. -/
def honControlTurnOff (dev : Device) (d : ControlDesc) : Device × List HaEvent :=
  ({ dev with data := updateA dev.data d.key (Value.bool false) },
   [HaEvent.syncCommand d.turnOffKey "settings", HaEvent.coordinatorUpdate,
    HaEvent.sendCommand d.turnOffKey, HaEvent.setAttr d.key (Value.bool false),
    HaEvent.writeHaState])

/-! ### HonConfigSwitchEntity -/

/-- `HonConfigSwitchEntity.is_on`: `setting.value != setting.min` when the
setting has a `min` attribute, otherwise `setting.value == "1"`; `none`
models the `KeyError` on a missing setting. -/
def honConfigIsOn (dev : Device) (key : String) : Option Bool :=
  match lookupA dev.settings key with
  | none => none
  | some setting =>
      some (if setting.hasMin then !(setting.value == setting.min)
            else setting.value == Value.str "1")

/-- `HonConfigSwitchEntity.async_turn_on`: look up `settings[key]`, return
early when the setting is exactly a `HonParameter`, otherwise assign `max`
(range) or the string `"1"`, update the coordinator and write HA state (no
command is sent). -/
def honConfigTurnOn (dev : Device) (key : String) : Option (Device × List HaEvent) :=
  match lookupA dev.settings key with
  | none => none
  | some setting =>
    if setting.kind = ParamKind.base then
      some (dev, [])
    else
      let newVal := if setting.kind = ParamKind.range then setting.max else Value.str "1"
      some ({ dev with settings := (updateA dev.settings key ({ setting with value := newVal })) },
            [HaEvent.coordinatorUpdate, HaEvent.writeHaState])

/-- `HonConfigSwitchEntity.async_turn_off`: as turn_on with `min` or `"0"`. -/
def honConfigTurnOff (dev : Device) (key : String) : Option (Device × List HaEvent) :=
  match lookupA dev.settings key with
  | none => none
  | some setting =>
    if setting.kind = ParamKind.base then
      some (dev, [])
    else
      let newVal := if setting.kind = ParamKind.range then setting.min else Value.str "0"
      some ({ dev with settings := (updateA dev.settings key ({ setting with value := newVal })) },
            [HaEvent.coordinatorUpdate, HaEvent.writeHaState])

/-- Device after an optional entity action (`none` leaves it unchanged;
used only to project results in theorem statements). -/
def afterDevice (r : Option (Device × List HaEvent)) (dflt : Device) : Device :=
  match r with
  | some (d, _) => d
  | none => dflt

/-- Trace of an optional entity action. -/
def afterTrace (r : Option (Device × List HaEvent)) : List HaEvent :=
  match r with
  | some (_, evs) => evs
  | none => []

end HaierHon

namespace HaierHon

/-! ### The declarative SWITCHES table -/

/-- Which of the three description dataclasses a table entry is. -/
inductive DescKind where
  | honControl | honSwitch | honConfig
  deriving DecidableEq, Repr

/-- A switch entity description: the dataclass tag plus the fields the
literal table sets (`key`, `name`, `icon`, `translation_key`, and for
control descriptions `turn_on_key`/`turn_off_key`). -/
structure SwitchDesc where
  kind : DescKind
  key : String
  name : String
  icon : String
  translationKey : Option String := none
  turnOnKey : String := ""
  turnOffKey : String := ""
  deriving DecidableEq, Repr

/-- A `HonControlSwitchEntityDescription(...)` literal. -/
def HonControlSwitchEntityDescription (key name icon turnOnKey turnOffKey : String)
    (translationKey : Option String) : SwitchDesc :=
  { kind := DescKind.honControl, key := key, name := name, icon := icon,
    translationKey := translationKey, turnOnKey := turnOnKey, turnOffKey := turnOffKey }

/-- A `HonSwitchEntityDescription(...)` literal. -/
def HonSwitchEntityDescription (key name icon : String)
    (translationKey : Option String) : SwitchDesc :=
  { kind := DescKind.honSwitch, key := key, name := name, icon := icon,
    translationKey := translationKey }

/-- A `HonConfigSwitchEntityDescription(...)` literal. -/
def HonConfigSwitchEntityDescription (key name icon : String)
    (translationKey : Option String) : SwitchDesc :=
  { kind := DescKind.honConfig, key := key, name := name, icon := icon,
    translationKey := translationKey }

/-- The `SWITCHES` dict literal of `switch.py` lines 38-399, before the two
`SWITCHES["WD"]` reassignments. -/
def SWITCHES_init : List (String × List SwitchDesc) := [
  ("WM", [
    HonControlSwitchEntityDescription "active" "Washing Machine" "mdi:washing-machine"
      "startProgram" "stopProgram" (some "washing_machine"),
    HonControlSwitchEntityDescription "pause" "Pause Washing Machine" "mdi:pause"
      "pauseProgram" "resumeProgram" (some "pause"),
    HonConfigSwitchEntityDescription "startProgram.delayStatus" "Delay Status"
      "mdi:timer-check" (some "delay_time"),
    HonConfigSwitchEntityDescription "startProgram.haier_SoakPrewashSelection"
      "Soak Prewash Selection" "mdi:tshirt-crew" (some "prewash"),
    HonConfigSwitchEntityDescription "startProgram.prewash" "Prewash" "mdi:tshirt-crew"
      (some "prewash"),
    HonConfigSwitchEntityDescription "startProgram.permanentPressStatus" "Keep Fresh"
      "mdi:refresh-circle" (some "keep_fresh"),
    HonConfigSwitchEntityDescription "startProgram.autoSoftenerStatus" "Auto Dose Softener"
      "mdi:teddy-bear" (some "auto_dose_softener"),
    HonConfigSwitchEntityDescription "startProgram.autoDetergentStatus" "Auto Dose Detergent"
      "mdi:cup" (some "auto_dose_detergent"),
    HonSwitchEntityDescription "autoSoftenerStatus" "Auto Dose Softener" "mdi:teddy-bear"
      (some "auto_dose_softener"),
    HonSwitchEntityDescription "autoDetergentStatus" "Auto Dose Detergent" "mdi:cup"
      (some "auto_dose_detergent"),
    HonConfigSwitchEntityDescription "startProgram.acquaplus" "Acqua Plus" "mdi:water-plus"
      (some "acqua_plus"),
    HonConfigSwitchEntityDescription "startProgram.extraRinse1" "Extra Rinse 1"
      "mdi:numeric-1-box-multiple-outline" (some "extra_rinse_1"),
    HonConfigSwitchEntityDescription "startProgram.extraRinse2" "Extra Rinse 2"
      "mdi:numeric-2-box-multiple-outline" (some "extra_rinse_2"),
    HonConfigSwitchEntityDescription "startProgram.extraRinse3" "Extra Rinse 3"
      "mdi:numeric-3-box-multiple-outline" (some "extra_rinse_3"),
    HonConfigSwitchEntityDescription "startProgram.goodNight" "Good Night"
      "mdi:weather-night" (some "good_night"),
    HonConfigSwitchEntityDescription "startProgram.hygiene" "Hygiene" "mdi:lotion-plus"
      (some "hygiene"),
    HonConfigSwitchEntityDescription "startProgram.anticrease" "Anti-Crease" "mdi:iron"
      (some "anti_crease")]),
  ("TD", [
    HonControlSwitchEntityDescription "active" "Tumble Dryer" "mdi:tumble-dryer"
      "startProgram" "stopProgram" (some "tumble_dryer"),
    HonControlSwitchEntityDescription "pause" "Pause Tumble Dryer" "mdi:pause"
      "pauseProgram" "resumeProgram" (some "pause"),
    HonConfigSwitchEntityDescription "startProgram.sterilizationStatus" "Sterilization"
      "mdi:lotion-plus" none,
    HonConfigSwitchEntityDescription "startProgram.tumblingStatus" "Tumbling"
      "mdi:refresh-circle" (some "keep_fresh"),
    HonConfigSwitchEntityDescription "startProgram.antiCreaseTime" "Anti-Crease" "mdi:iron"
      (some "anti_crease"),
    HonConfigSwitchEntityDescription "startProgram.anticrease" "Anti-Crease" "mdi:iron"
      (some "anti_crease")]),
  ("OV", [
    HonControlSwitchEntityDescription "active" "Oven" "mdi:toaster-oven"
      "startProgram" "stopProgram" (some "oven"),
    HonConfigSwitchEntityDescription "startProgram.preheatStatus" "Preheat"
      "mdi:thermometer-chevron-up" (some "preheat")]),
  ("WD", [
    HonControlSwitchEntityDescription "active" "Washer Dryer" "mdi:washing-machine"
      "startProgram" "stopProgram" (some "washer_dryer"),
    HonControlSwitchEntityDescription "pause" "Pause Washer Dryer" "mdi:pause"
      "pauseProgram" "resumeProgram" (some "pause")]),
  ("DW", [
    HonControlSwitchEntityDescription "active" "Dish Washer" "mdi:dishwasher"
      "startProgram" "stopProgram" (some "dish_washer"),
    HonConfigSwitchEntityDescription "startProgram.extraDry" "Extra Dry" "mdi:hair-dryer"
      (some "extra_dry"),
    HonConfigSwitchEntityDescription "startProgram.halfLoad" "Half Load"
      "mdi:fraction-one-half" (some "half_load"),
    HonConfigSwitchEntityDescription "startProgram.openDoor" "Open Door" "mdi:door-open"
      (some "open_door"),
    HonConfigSwitchEntityDescription "startProgram.threeInOne" "Three in One"
      "mdi:numeric-3-box-outline" (some "three_in_one"),
    HonConfigSwitchEntityDescription "startProgram.ecoExpress" "Eco Express" "mdi:sprout"
      (some "eco"),
    HonConfigSwitchEntityDescription "startProgram.addDish" "Add Dish"
      "mdi:silverware-fork-knife" (some "add_dish"),
    HonSwitchEntityDescription "buzzerDisabled" "Buzzer Disabled" "mdi:volume-off"
      (some "buzzer"),
    HonConfigSwitchEntityDescription "startProgram.tabStatus" "Tab Status"
      "mdi:silverware-clean" none]),
  ("AC", [
    HonSwitchEntityDescription "10degreeHeatingStatus" "10Â° Heating"
      "mdi:heat-wave" (some "10_degree_heating"),
    HonSwitchEntityDescription "echoStatus" "Echo" "mdi:account-voice" none,
    HonSwitchEntityDescription "ecoMode" "Eco Mode" "mdi:sprout" (some "eco_mode"),
    HonSwitchEntityDescription "healthMode" "Health Mode" "mdi:medication-outline" none,
    HonSwitchEntityDescription "muteStatus" "Silent Mode" "mdi:volume-off"
      (some "silent_mode"),
    HonSwitchEntityDescription "rapidMode" "Rapid Mode" "mdi:run-fast" (some "rapid_mode"),
    HonSwitchEntityDescription "screenDisplayStatus" "Screen Display" "mdi:monitor-small"
      none,
    HonSwitchEntityDescription "selfCleaning56Status" "Self Cleaning 56" "mdi:air-filter"
      (some "self_clean_56"),
    HonSwitchEntityDescription "selfCleaningStatus" "Self Cleaning" "mdi:air-filter"
      (some "self_clean"),
    HonSwitchEntityDescription "silentSleepStatus" "Night Mode" "mdi:bed"
      (some "night_mode")]),
  ("REF", [
    HonSwitchEntityDescription "intelligenceMode" "Auto-Set Mode" "mdi:thermometer-auto"
      (some "auto_set"),
    HonSwitchEntityDescription "quickModeZ2" "Super Freeze" "mdi:snowflake-variant"
      (some "super_freeze"),
    HonSwitchEntityDescription "quickModeZ1" "Super Cool" "mdi:snowflake"
      (some "super_cool")]),
  ("WC", [
    HonSwitchEntityDescription "sabbathStatus" "Sabbath Mode" "mdi:palm-tree"
      (some "holiday_mode")]),
  ("HO", [
    HonControlSwitchEntityDescription "onOffStatus" "Hood" "mdi:hvac"
      "startProgram" "stopProgram" (some "hood")]),
  ("AP", [
    HonSwitchEntityDescription "touchToneStatus" "Touch Tone" "mdi:account-voice"
      (some "touch_tone")]),
  ("FRE", [
    HonSwitchEntityDescription "quickModeZ2" "Super Freeze" "mdi:snowflake-variant"
      (some "super_freeze"),
    HonSwitchEntityDescription "quickModeZ1" "Super Cool" "mdi:snowflake"
      (some "super_cool")])]

/-- Modelled from the spec: `unique_entities` is imported from `util.py`,
which is not among the included source files; the spec only calls the tables
"static per-appliance-type declarative tables" that are "consumed directly".
Following the function's name and its use at `switch.py` lines 401-402, it is
modelled as keeping the base descriptions and appending those new
descriptions whose `key` does not already occur among the base keys. -/
def unique_entities (base new : List SwitchDesc) : List SwitchDesc :=
  base ++ new.filter (fun e => !((base.map (fun b => b.key)).contains e.key))

/-- The table after `SWITCHES["WD"] = unique_entities(SWITCHES["WD"],
SWITCHES["WM"])` (line 401). -/
def SWITCHES_step1 : List (String × List SwitchDesc) :=
  updateA SWITCHES_init "WD"
    (unique_entities ((lookupA SWITCHES_init "WD").getD [])
      ((lookupA SWITCHES_init "WM").getD []))

/-- The final `SWITCHES` table after the second reassignment
`SWITCHES["WD"] = unique_entities(SWITCHES["WD"], SWITCHES["TD"])`
(line 402), as seen by the platform setup. -/
def SWITCHES : List (String × List SwitchDesc) :=
  updateA SWITCHES_step1 "WD"
    (unique_entities ((lookupA SWITCHES_step1 "WD").getD [])
      ((lookupA SWITCHES_step1 "TD").getD []))

end HaierHon

namespace HaierHon

/-! ### Switch platform async_setup_entry (switch.py lines 405-432) -/

/-- The per-description filter of the platform setup loop: a config
description needs its key in `available_settings`; a control description
needs a device value for its key or one of its command keys among the
device's commands; a plain switch description needs `settings.<key>` in
`available_settings` (the three dataclasses are mutually exclusive, so the
`isinstance` chain is a case split on the tag). -/
def descWanted (dev : Device) (d : SwitchDesc) : Bool :=
  match d.kind with
  | DescKind.honConfig => dev.availableSettings.contains d.key
  | DescKind.honControl =>
      (dev.getOpt d.key).isSome || dev.commands.contains d.turnOnKey
        || dev.commands.contains d.turnOffKey
  | DescKind.honSwitch => dev.availableSettings.contains (String.append "settings." d.key)

/-- The descriptions for which the setup loop appends an entity for one
device: `SWITCHES.get(device.appliance_type, [])` filtered by `descWanted`. -/
def switchSetupEntitiesFor (dev : Device) : List SwitchDesc :=
  ((lookupA SWITCHES dev.applianceType).getD []).filter (descWanted dev)

/-- The full entity list handed to `async_add_entities`, looping over all
appliances. -/
def switch_async_setup_entry (devices : List Device) : List (Device × SwitchDesc) :=
  devices.foldr (fun dev acc => (switchSetupEntitiesFor dev).map (fun d => (dev, d)) ++ acc) []

/-! ### __init__.py -/

/-- A Python exception as `__init__.py` distinguishes them: a `ValueError`
with its message, or any other exception with a message. -/
inductive PyErr where
  | valueError : String → PyErr
  | otherError : String → PyErr
  deriving DecidableEq, Repr

/-- Whether `pat` is an initial segment of `s` (on character lists). -/
def listHasPre : List Char → List Char → Bool
  | _, [] => true
  | [], _ :: _ => false
  | c :: cs, p :: ps => c == p && listHasPre cs ps

/-- Whether `pat` occurs inside `s` (on character lists). -/
def listHasSub (pat : List Char) : List Char → Bool
  | [] => listHasPre [] pat
  | c :: rest => listHasPre (c :: rest) pat || listHasSub pat rest

/-- Python's `pat in s` substring test. -/
def hasSub (s pat : String) : Bool := listHasSub pat.data s.data

/-- `async_forward_entry_setups_with_error_handling`: run the host's
platform forwarding (its outcome is the argument); a `ValueError` whose
message contains "has already been setup" is logged at debug level and
swallowed; every other exception is logged and re-raised. -/
def async_forward_entry_setups_with_error_handling (r : Except PyErr Unit) :
    Except PyErr Unit :=
  match r with
  | Except.ok _ => Except.ok ()
  | Except.error (PyErr.valueError m) =>
      if hasSub m "has already been setup" then Except.ok ()
      else Except.error (PyErr.valueError m)
  | Except.error (PyErr.otherError m) => Except.error (PyErr.otherError m)

/-- `HonDataUpdateCoordinator.async_set_updated_data`: delegate to the base
class (its outcome is the argument); on exception, log and `raise` again. -/
def coordinator_async_set_updated_data (inner : Except PyErr Unit) : Except PyErr Unit :=
  match inner with
  | Except.ok _ => Except.ok ()
  | Except.error e => Except.error e

/-- The wrapper produced by `make_threadsafe_callback`: try to schedule
`coordinator.async_set_updated_data({})` on the event loop via
`hass.loop.call_soon_threadsafe` (whose outcome is the argument); any
exception is logged and swallowed, so the wrapper itself always returns
normally and never runs the coordinator update directly. -/
def make_threadsafe_callback_wrapper (callSoon : Except PyErr Unit) :
    Except PyErr Unit × List HaEvent :=
  match callSoon with
  | Except.ok _ => (Except.ok (), [HaEvent.scheduleOnLoop HaEvent.coordinatorUpdate])
  | Except.error _ => (Except.ok (), [])

/-- The slice of the vendor client that `async_setup_entry` consumes. -/
structure HonClient where
  refreshToken : String
  deriving DecidableEq, Repr

/-- The environment of one `async_setup_entry` run: the host's config dir,
the outcome of `Hon(...).create()`, and the outcome of the host's platform
forwarding. -/
structure SetupCtx where
  configDir : Option String
  createResult : Except PyErr HonClient
  forwardResult : Except PyErr Unit
  deriving Repr

/-- The host state `async_setup_entry` mutates: the config entry's data
dict, `hass.data[DOMAIN][entry.unique_id]` (the stored client together with
the id of its coordinator), and counters of coordinators constructed and
update subscriptions registered. -/
structure HassState where
  entryData : List (String × String)
  honData : Option (HonClient × Nat)
  coordinatorsCreated : Nat
  subscriptions : Nat
  deriving DecidableEq, Repr

/-- `CONF_REFRESH_TOKEN` from `const.py` (that file is not included; only
the key's identity matters here). -/
def CONF_REFRESH_TOKEN : String := "refresh_token"

/-- `async_setup_entry` of `__init__.py`: fail on a missing config dir;
re-raise a failed `Hon(...).create()` with the state untouched; otherwise
persist the refresh token into the entry data, construct one coordinator,
subscribe one update callback, store client and coordinator under
`hass.data[DOMAIN][entry.unique_id]`, forward the platform setups through
the error handler, and return `True`. -/
def async_setup_entry (ctx : SetupCtx) (st : HassState) : Except PyErr Bool × HassState :=
  match ctx.configDir with
  | none => (Except.error (PyErr.valueError "Missing Config Dir"), st)
  | some _ =>
    match ctx.createResult with
    | Except.error e => (Except.error e, st)
    | Except.ok hon =>
      let st1 := { st with entryData := updateA st.entryData CONF_REFRESH_TOKEN hon.refreshToken }
      let st2 := { st1 with coordinatorsCreated := st1.coordinatorsCreated + 1 }
      let st3 := { st2 with subscriptions := st2.subscriptions + 1 }
      let st4 := { st3 with honData := some (hon, st.coordinatorsCreated) }
      match async_forward_entry_setups_with_error_handling ctx.forwardResult with
      | Except.error e => (Except.error e, st4)
      | Except.ok _ => (Except.ok true, st4)

/-- `HonSwitchEntity._handle_coordinator_update`: recompute `is_on` into
`_attr_is_on`, then (when `update` is set) write HA state, whose outcome is
the last argument; the whole body is wrapped in `try/except` that logs and
swallows every exception, so the method always returns normally. -/
def handle_coordinator_update (dev : Device) (key : String) (update : Bool)
    (writeResult : Except PyErr Unit) : Option Bool × Except PyErr Unit :=
  let ison := honSwitchIsOn dev key
  if update then
    match writeResult with
    | Except.ok _ => (some ison, Except.ok ())
    | Except.error _ => (some ison, Except.ok ())
  else (some ison, Except.ok ())

end HaierHon

namespace HaierHon

/-! ### Claim theorems -/

/-- C4: `HonControlSwitchEntity.async_turn_on` performs, in order, the
`sync_command(turn_on_key, "settings")` call, the coordinator update, the
send of the command named `turn_on_key`, and only then the assignment of the
device attribute `key` to `True` (followed by the HA state write), and the
resulting device holds `True` at `key`; `async_turn_off` does the same with
`turn_off_key` and `False`. -/
theorem control_turn_on_off_order_and_attr (dev : Device) (d : ControlDesc) :
    (honControlTurnOn dev d).2 =
      [HaEvent.syncCommand d.turnOnKey "settings", HaEvent.coordinatorUpdate,
       HaEvent.sendCommand d.turnOnKey, HaEvent.setAttr d.key (Value.bool true),
       HaEvent.writeHaState]
    ∧ lookupA (honControlTurnOn dev d).1.data d.key = some (Value.bool true)
    ∧ (honControlTurnOff dev d).2 =
      [HaEvent.syncCommand d.turnOffKey "settings", HaEvent.coordinatorUpdate,
       HaEvent.sendCommand d.turnOffKey, HaEvent.setAttr d.key (Value.bool false),
       HaEvent.writeHaState]
    ∧ lookupA (honControlTurnOff dev d).1.data d.key = some (Value.bool false) := by
  refine ⟨rfl, ?_, rfl, ?_⟩ <;>
    simp [honControlTurnOn, honControlTurnOff, lookupA_updateA_self]

/-- C7: the wrapper installed by `make_threadsafe_callback` never runs the
coordinator update directly on the calling thread: it always returns
normally, its trace never contains a direct `coordinatorUpdate`, and the
only effect it can emit is scheduling that update onto the event loop via
`call_soon_threadsafe`. -/
theorem threadsafe_callback_only_schedules (r : Except PyErr Unit) :
    (make_threadsafe_callback_wrapper r).1 = Except.ok ()
    ∧ (make_threadsafe_callback_wrapper r).2.contains HaEvent.coordinatorUpdate = false
    ∧ ((make_threadsafe_callback_wrapper r).2 = []
       ∨ (make_threadsafe_callback_wrapper r).2
           = [HaEvent.scheduleOnLoop HaEvent.coordinatorUpdate]) := by
  cases r with
  | ok u =>
    cases u
    exact ⟨rfl, by decide, Or.inr rfl⟩
  | error e => exact ⟨rfl, rfl, Or.inl rfl⟩

/-- C2 counterexample: not every error is re-raised. An exception raised
inside the threadsafe callback wrapper is logged and swallowed (the wrapper
returns normally), a duplicate-setup `ValueError` in the platform forwarding
is swallowed, and an exception during `_handle_coordinator_update`'s state
write is swallowed. -/
theorem errors_are_sometimes_swallowed :
    (make_threadsafe_callback_wrapper (Except.error (PyErr.otherError "boom"))).1
      = Except.ok ()
    ∧ async_forward_entry_setups_with_error_handling
        (Except.error (PyErr.valueError "Config entry has already been setup!"))
      = Except.ok ()
    ∧ (handle_coordinator_update ({} : Device) "k" true
        (Except.error (PyErr.otherError "boom"))).2 = Except.ok () := by
  refine ⟨rfl, ?_, rfl⟩
  rfl

/-- C2 amended: the client-creation step of `async_setup_entry` and the
coordinator's `async_set_updated_data` log and re-raise their errors, and
the platform forwarding re-raises every error except a `ValueError` whose
message contains "has already been setup" (which it logs and swallows);
however the threadsafe callback wrapper and `_handle_coordinator_update`
catch, log and swallow every exception instead of re-raising it. -/
theorem error_policy_per_operation :
    (∀ e : PyErr, coordinator_async_set_updated_data (Except.error e) = Except.error e)
    ∧ (∀ (d : String) (fr : Except PyErr Unit) (e : PyErr) (st : HassState),
        async_setup_entry { configDir := some d, createResult := Except.error e,
                            forwardResult := fr } st = (Except.error e, st))
    ∧ (∀ e : PyErr, (make_threadsafe_callback_wrapper (Except.error e)).1 = Except.ok ())
    ∧ (∀ (dev : Device) (key : String) (u : Bool) (e : PyErr),
        (handle_coordinator_update dev key u (Except.error e)).2 = Except.ok ())
    ∧ (∀ m : String, async_forward_entry_setups_with_error_handling
          (Except.error (PyErr.valueError m))
        = if hasSub m "has already been setup" then Except.ok ()
          else Except.error (PyErr.valueError m))
    ∧ (∀ m : String, async_forward_entry_setups_with_error_handling
          (Except.error (PyErr.otherError m)) = Except.error (PyErr.otherError m)) := by
  refine ⟨fun e => rfl, fun d fr e st => rfl, fun e => rfl, ?_, fun m => rfl, fun m => rfl⟩
  intro dev key u e
  cases u <;> rfl

/-- C6: with a config dir present, a successful `Hon(...).create()` and
successful platform forwarding, `async_setup_entry` persists the client's
refresh token into the entry data, constructs exactly one coordinator,
registers exactly one update subscription, stores the client together with
that coordinator under `hass.data[DOMAIN][entry.unique_id]`, and returns
`True`; when the client creation fails, the same exception propagates and
the host state — in particular the coordinator count and the stored data —
is unchanged. -/
theorem setup_entry_success_and_create_failure
    (d : String) (hon : HonClient) (st : HassState) (fr : Except PyErr Unit) (e : PyErr) :
    (async_setup_entry { configDir := some d, createResult := Except.ok hon,
                         forwardResult := Except.ok () } st
      = (Except.ok true,
         { entryData := updateA st.entryData CONF_REFRESH_TOKEN hon.refreshToken,
           honData := some (hon, st.coordinatorsCreated),
           coordinatorsCreated := st.coordinatorsCreated + 1,
           subscriptions := st.subscriptions + 1 }))
    ∧ lookupA (async_setup_entry { configDir := some d, createResult := Except.ok hon,
                                   forwardResult := Except.ok () } st).2.entryData
        CONF_REFRESH_TOKEN
      = some hon.refreshToken
    ∧ async_setup_entry { configDir := some d, createResult := Except.error e,
                          forwardResult := fr } st = (Except.error e, st) := by
  refine ⟨rfl, ?_, rfl⟩
  simp [async_setup_entry, async_forward_entry_setups_with_error_handling,
        lookupA_updateA_self]

end HaierHon

namespace HaierHon

theorem honSwitchTurnOn_eq (dev : Device) (key : String) (s : Setting)
    (hs : lookupA dev.settings (String.append "settings." key) = some s)
    (hk : s.kind ≠ ParamKind.base) :
    honSwitchTurnOn dev key = some
      ({ dev with settings := (updateA dev.settings (String.append "settings." key)
          ({ s with value := if s.kind = ParamKind.range then s.max else Value.int 1 })) },
       [HaEvent.writeHaState, HaEvent.sendCommand "settings", HaEvent.coordinatorUpdate]) := by
  simp [honSwitchTurnOn, hs, hk]

theorem honSwitchTurnOff_eq (dev : Device) (key : String) (s : Setting)
    (hs : lookupA dev.settings (String.append "settings." key) = some s)
    (hk : s.kind ≠ ParamKind.base) :
    honSwitchTurnOff dev key = some
      ({ dev with settings := (updateA dev.settings (String.append "settings." key)
          ({ s with value := if s.kind = ParamKind.range then s.min else Value.int 0 })) },
       [HaEvent.writeHaState, HaEvent.sendCommand "settings", HaEvent.coordinatorUpdate]) := by
  simp [honSwitchTurnOff, hs, hk]

theorem honConfigTurnOn_eq (dev : Device) (key : String) (s : Setting)
    (hs : lookupA dev.settings key = some s) (hk : s.kind ≠ ParamKind.base) :
    honConfigTurnOn dev key = some
      ({ dev with settings := (updateA dev.settings key
          ({ s with value := if s.kind = ParamKind.range then s.max else Value.str "1" })) },
       [HaEvent.coordinatorUpdate, HaEvent.writeHaState]) := by
  simp [honConfigTurnOn, hs, hk]

theorem honConfigTurnOff_eq (dev : Device) (key : String) (s : Setting)
    (hs : lookupA dev.settings key = some s) (hk : s.kind ≠ ParamKind.base) :
    honConfigTurnOff dev key = some
      ({ dev with settings := (updateA dev.settings key
          ({ s with value := if s.kind = ParamKind.range then s.min else Value.str "0" })) },
       [HaEvent.coordinatorUpdate, HaEvent.writeHaState]) := by
  simp [honConfigTurnOff, hs, hk]

/-- C1: for a writable setting (not exactly the base `HonParameter`), the
switch entity's turn_on assigns the setting's `max` when it is a range and
`1` otherwise, its turn_off assigns `min` or `0`; the config entity's
turn_on assigns `max` or the string `"1"`, its turn_off `min` or `"0"`; and
in each of the four cases every other setting and all device data are left
unchanged. -/
theorem turn_on_off_value_and_frame (dev : Device) (key : String) (s : Setting) :
    (lookupA dev.settings (String.append "settings." key) = some s →
      s.kind ≠ ParamKind.base →
      lookupA (afterDevice (honSwitchTurnOn dev key) dev).settings
          (String.append "settings." key)
        = some ({ s with value := if s.kind = ParamKind.range then s.max else Value.int 1 })
      ∧ (∀ k2, k2 ≠ String.append "settings." key →
          lookupA (afterDevice (honSwitchTurnOn dev key) dev).settings k2
            = lookupA dev.settings k2)
      ∧ (afterDevice (honSwitchTurnOn dev key) dev).data = dev.data
      ∧ lookupA (afterDevice (honSwitchTurnOff dev key) dev).settings
          (String.append "settings." key)
        = some ({ s with value := if s.kind = ParamKind.range then s.min else Value.int 0 })
      ∧ (∀ k2, k2 ≠ String.append "settings." key →
          lookupA (afterDevice (honSwitchTurnOff dev key) dev).settings k2
            = lookupA dev.settings k2)
      ∧ (afterDevice (honSwitchTurnOff dev key) dev).data = dev.data)
    ∧ (lookupA dev.settings key = some s →
      s.kind ≠ ParamKind.base →
      lookupA (afterDevice (honConfigTurnOn dev key) dev).settings key
        = some ({ s with value := if s.kind = ParamKind.range then s.max else Value.str "1" })
      ∧ (∀ k2, k2 ≠ key →
          lookupA (afterDevice (honConfigTurnOn dev key) dev).settings k2
            = lookupA dev.settings k2)
      ∧ (afterDevice (honConfigTurnOn dev key) dev).data = dev.data
      ∧ lookupA (afterDevice (honConfigTurnOff dev key) dev).settings key
        = some ({ s with value := if s.kind = ParamKind.range then s.min else Value.str "0" })
      ∧ (∀ k2, k2 ≠ key →
          lookupA (afterDevice (honConfigTurnOff dev key) dev).settings k2
            = lookupA dev.settings k2)
      ∧ (afterDevice (honConfigTurnOff dev key) dev).data = dev.data) := by
  constructor
  · intro hs hk
    rw [honSwitchTurnOn_eq dev key s hs hk, honSwitchTurnOff_eq dev key s hs hk]
    refine ⟨?_, ?_, rfl, ?_, ?_, rfl⟩
    · simp [afterDevice, lookupA_updateA_self]
    · intro k2 hk2
      simp only [afterDevice]
      exact lookupA_updateA_other _ _ _ _ hk2
    · simp [afterDevice, lookupA_updateA_self]
    · intro k2 hk2
      simp only [afterDevice]
      exact lookupA_updateA_other _ _ _ _ hk2
  · intro hs hk
    rw [honConfigTurnOn_eq dev key s hs hk, honConfigTurnOff_eq dev key s hs hk]
    refine ⟨?_, ?_, rfl, ?_, ?_, rfl⟩
    · simp [afterDevice, lookupA_updateA_self]
    · intro k2 hk2
      simp only [afterDevice]
      exact lookupA_updateA_other _ _ _ _ hk2
    · simp [afterDevice, lookupA_updateA_self]
    · intro k2 hk2
      simp only [afterDevice]
      exact lookupA_updateA_other _ _ _ _ hk2

/-- C8: when the setting is exactly the base `HonParameter` class, all four
turn_on/turn_off methods return early: the device is unchanged and no
effect at all is emitted (no value assigned, no command sent). -/
theorem readonly_setting_noop (dev : Device) (key : String) (s : Setting) :
    (lookupA dev.settings (String.append "settings." key) = some s →
      s.kind = ParamKind.base →
      honSwitchTurnOn dev key = some (dev, []) ∧ honSwitchTurnOff dev key = some (dev, []))
    ∧ (lookupA dev.settings key = some s → s.kind = ParamKind.base →
      honConfigTurnOn dev key = some (dev, [])
        ∧ honConfigTurnOff dev key = some (dev, [])) := by
  constructor
  · intro hs hk
    constructor
    · simp [honSwitchTurnOn, hs, hk]
    · simp [honSwitchTurnOff, hs, hk]
  · intro hs hk
    constructor
    · simp [honConfigTurnOn, hs, hk]
    · simp [honConfigTurnOff, hs, hk]

end HaierHon

namespace HaierHon

/-- C5: the three `is_on` readers are pure reads of the externally owned
device (they are plain functions of the device, mutating nothing): the
switch entity is on iff the device value at the key equals `1` (an absent
key defaults to `0`, hence off); the control entity returns the raw device
value (`False` when absent); the config entity is on iff the setting's
value differs from its `min` when the setting has one, and otherwise iff
the value equals the string `"1"`. -/
theorem is_on_pass_through (dev : Device) (key : String) (v : Value) (s : Setting) :
    (dev.getOpt key = none → honSwitchIsOn dev key = false)
    ∧ (dev.getOpt key = some v → (honSwitchIsOn dev key = true ↔ v = Value.int 1))
    ∧ (dev.getOpt key = none → honControlIsOn dev key = Value.bool false)
    ∧ (dev.getOpt key = some v → honControlIsOn dev key = v)
    ∧ (lookupA dev.settings key = some s → s.hasMin = true →
        (honConfigIsOn dev key = some true ↔ s.value ≠ s.min))
    ∧ (lookupA dev.settings key = some s → s.hasMin = false →
        (honConfigIsOn dev key = some true ↔ s.value = Value.str "1")) := by
  refine ⟨?_, ?_, ?_, ?_, ?_, ?_⟩
  · intro h
    simp [honSwitchIsOn, Device.get, Device.getOpt] at *
    simp [h]
  · intro h
    simp [honSwitchIsOn, Device.get, Device.getOpt] at *
    simp [h]
  · intro h
    simp [honControlIsOn, Device.get, Device.getOpt] at *
    simp [h]
  · intro h
    simp [honControlIsOn, Device.get, Device.getOpt] at *
    simp [h]
  · intro hs hm
    simp [honConfigIsOn, hs, hm]
  · intro hs hm
    simp [honConfigIsOn, hs, hm]

/-- C9: the switch platform setup instantiates entities only for supported
descriptions: every description it keeps for a device comes from the
`SWITCHES` entry for the device's appliance type, and — according to its
dataclass — a config description only when its key is among the device's
available settings, a plain switch description only when `settings.<key>`
is among them, and a control description only when the device has a value
for the key or one of `turn_on_key`/`turn_off_key` is among the device's
commands; an appliance type absent from `SWITCHES` yields no entities. -/
theorem setup_filters_by_support (dev : Device) (d : SwitchDesc) :
    (d ∈ switchSetupEntitiesFor dev →
      d ∈ (lookupA SWITCHES dev.applianceType).getD []
      ∧ (d.kind = DescKind.honConfig → dev.availableSettings.contains d.key = true)
      ∧ (d.kind = DescKind.honSwitch →
          dev.availableSettings.contains (String.append "settings." d.key) = true)
      ∧ (d.kind = DescKind.honControl →
          ((dev.getOpt d.key).isSome = true ∨ dev.commands.contains d.turnOnKey = true
            ∨ dev.commands.contains d.turnOffKey = true)))
    ∧ (lookupA SWITCHES dev.applianceType = none → switchSetupEntitiesFor dev = []) := by
  constructor
  · intro hmem
    rw [switchSetupEntitiesFor, List.mem_filter] at hmem
    obtain ⟨hin, hw⟩ := hmem
    refine ⟨hin, ?_, ?_, ?_⟩
    · intro hk
      rw [descWanted, hk] at hw
      exact hw
    · intro hk
      rw [descWanted, hk] at hw
      exact hw
    · intro hk
      rw [descWanted, hk] at hw
      simpa [Bool.or_eq_true, or_assoc] using hw
  · intro h
    simp [switchSetupEntitiesFor, h]

/-- C10: `HonSwitchEntity.available` is `False` whenever the device's
`remoteCtrValid` value is present and differs from `1`, or the last
connection event category is `"DISCONNECTED"`, or the setting behind the
entity is a `HonParameterRange` with fewer than two values; an absent
`remoteCtrValid` defaults to `1` and does not block availability. -/
theorem switch_available_conditions (sup : Bool) (dev : Device) (key : String)
    (v : Value) (s : Setting) :
    (dev.getOpt "remoteCtrValid" = some v → v ≠ Value.int 1 →
      honSwitchAvailable sup dev key = some false)
    ∧ (dev.getOpt "attributes.lastConnEvent.category" = some (Value.str "DISCONNECTED") →
      honSwitchAvailable sup dev key = some false)
    ∧ (lookupA dev.settings (String.append "settings." key) = some s →
        s.kind = ParamKind.range → s.values.length < 2 →
      honSwitchAvailable sup dev key = some false)
    ∧ (dev.getOpt "remoteCtrValid" = none → sup = true →
        dev.getOpt "attributes.lastConnEvent.category" ≠ some (Value.str "DISCONNECTED") →
        lookupA dev.settings (String.append "settings." key) = some s →
        s.kind ≠ ParamKind.range →
      honSwitchAvailable sup dev key = some true) := by
  refine ⟨?_, ?_, ?_, ?_⟩
  · intro hv hne
    cases sup with
    | false => simp [honSwitchAvailable]
    | true =>
      rw [Device.getOpt] at hv
      simp [honSwitchAvailable, Device.get, hv, hne]
  · intro hd
    rw [Device.getOpt] at hd
    cases sup with
    | false => simp [honSwitchAvailable]
    | true =>
      by_cases hrc : (dev.get "remoteCtrValid" (Value.int 1) == Value.int 1) = true
      · simp [honSwitchAvailable, hrc, Device.getOpt, hd]
      · simp [honSwitchAvailable, hrc]
  · intro hs hr hl
    cases sup with
    | false => simp [honSwitchAvailable]
    | true =>
      by_cases hrc : (dev.get "remoteCtrValid" (Value.int 1) == Value.int 1) = true
      · by_cases hdc : (dev.getOpt "attributes.lastConnEvent.category"
            == some (Value.str "DISCONNECTED")) = true
        · simp [honSwitchAvailable, hrc, hdc]
        · simp [honSwitchAvailable, hrc, hdc, hs, hr, decide_eq_true hl]
      · simp [honSwitchAvailable, hrc]
  · intro hn hsup hdc hs hkr
    subst hsup
    rw [Device.getOpt] at hn hdc
    simp [honSwitchAvailable, Device.get, Device.getOpt, hn, hdc, hs, hkr]

end HaierHon

namespace HaierHon

/-- C3 counterexample: the `"WD"` entry of the final `SWITCHES` table
differs from its dict-literal definition, because lines 401-402 of
`switch.py` reassign `SWITCHES["WD"]` after the literal is built. -/
theorem switches_wd_recomputed :
    lookupA SWITCHES "WD" ≠ lookupA SWITCHES_init "WD" := by
  decide

/-- C3 amended: every appliance type other than `"WD"` keeps exactly its
literal tuple of descriptions, and nothing else mutates the table; the
`"WD"` tuple alone is recomputed once at module load by the two
`unique_entities` reassignments, producing the two literal washer-dryer
control descriptions followed by the washing-machine and then tumble-dryer
descriptions whose keys were not already present. -/
theorem switches_static_except_wd (t : String) (h : t ≠ "WD") :
    lookupA SWITCHES t = lookupA SWITCHES_init t
    ∧ ((lookupA SWITCHES "WD").getD []).map (fun d => d.key)
      = ["active", "pause", "startProgram.delayStatus",
         "startProgram.haier_SoakPrewashSelection", "startProgram.prewash",
         "startProgram.permanentPressStatus", "startProgram.autoSoftenerStatus",
         "startProgram.autoDetergentStatus", "autoSoftenerStatus", "autoDetergentStatus",
         "startProgram.acquaplus", "startProgram.extraRinse1", "startProgram.extraRinse2",
         "startProgram.extraRinse3", "startProgram.goodNight", "startProgram.hygiene",
         "startProgram.anticrease", "startProgram.sterilizationStatus",
         "startProgram.tumblingStatus", "startProgram.antiCreaseTime"] := by
  constructor
  · rw [SWITCHES, lookupA_updateA_other _ _ _ _ h, SWITCHES_step1,
        lookupA_updateA_other _ _ _ _ h]
  · decide

end HaierHon

namespace HaierHon

/-! ### Concrete instances for the hypothesised theorems -/

/-- A writable non-range setting as a `HonSwitchEntity` sees it. -/
def sExSwitch : Setting := { kind := ParamKind.enum, value := Value.int 0 }

/-- A writable non-range setting without a `min`, as a
`HonConfigSwitchEntity` sees it. -/
def sExConfig : Setting := { kind := ParamKind.enum, value := Value.str "0" }

/-- A read-only setting of exactly the base `HonParameter` class. -/
def sExBase : Setting := { kind := ParamKind.base, value := Value.int 0 }

/-- A concrete air conditioner with an `ecoMode` setting and an invalid
remote-control flag. -/
def devEx : Device :=
  { applianceType := "AC",
    data := [("ecoMode", Value.int 0), ("remoteCtrValid", Value.int 0)],
    settings := [("settings.ecoMode", sExSwitch), ("ecoMode", sExConfig)],
    availableSettings := ["settings.ecoMode"],
    commands := ["settings"] }

/-- A device whose settings are read-only base parameters. -/
def devExBase : Device :=
  { settings := [("settings.lockStatus", sExBase), ("lockStatus", sExBase)] }

/-- A device with no `remoteCtrValid` attribute and a healthy setting. -/
def devAvail : Device :=
  { settings := [("settings.ecoMode", sExSwitch)] }

/-- A device of an appliance type that has no `SWITCHES` entry. -/
def devUnknown : Device := { applianceType := "XX" }

/-- The `ecoMode` description from the `"AC"` table entry. -/
def ecoModeDesc : SwitchDesc :=
  HonSwitchEntityDescription "ecoMode" "Eco Mode" "mdi:sprout" (some "eco_mode")

/-- C1 witness: on the concrete appliance, switch turn_on writes `1` into
`settings.ecoMode`, config turn_off writes `"0"` into `ecoMode`, and the
other settings entry is untouched. -/
theorem turn_on_off_value_and_frame_wit :
    lookupA (afterDevice (honSwitchTurnOn devEx "ecoMode") devEx).settings
        (String.append "settings." "ecoMode")
      = some ({ sExSwitch with value := if sExSwitch.kind = ParamKind.range
                  then sExSwitch.max else Value.int 1 })
    ∧ lookupA (afterDevice (honConfigTurnOff devEx "ecoMode") devEx).settings "ecoMode"
      = some ({ sExConfig with value := if sExConfig.kind = ParamKind.range
                  then sExConfig.min else Value.str "0" })
    ∧ lookupA (afterDevice (honSwitchTurnOn devEx "ecoMode") devEx).settings "ecoMode"
      = lookupA devEx.settings "ecoMode" :=
  ⟨((turn_on_off_value_and_frame devEx "ecoMode" sExSwitch).1 (by decide) (by decide)).1,
   ((turn_on_off_value_and_frame devEx "ecoMode" sExConfig).2 (by decide)
      (by decide)).2.2.2.1,
   ((turn_on_off_value_and_frame devEx "ecoMode" sExSwitch).1 (by decide)
      (by decide)).2.1 "ecoMode" (by decide)⟩

/-- C8 witness: on the read-only device, both a switch and a config
turn_on/turn_off are exact no-ops. -/
theorem readonly_setting_noop_wit :
    honSwitchTurnOn devExBase "lockStatus" = some (devExBase, [])
    ∧ honConfigTurnOff devExBase "lockStatus" = some (devExBase, []) :=
  ⟨((readonly_setting_noop devExBase "lockStatus" sExBase).1 (by decide) rfl).1,
   ((readonly_setting_noop devExBase "lockStatus" sExBase).2 (by decide) rfl).2⟩

/-- C5 witness: the `is_on` readers evaluated on the concrete appliance. -/
theorem is_on_pass_through_wit :
    honSwitchIsOn devEx "missing" = false
    ∧ (honSwitchIsOn devEx "ecoMode" = true ↔ Value.int 0 = Value.int 1)
    ∧ honControlIsOn devEx "ecoMode" = Value.int 0
    ∧ (honConfigIsOn devEx "ecoMode" = some true ↔ sExConfig.value = Value.str "1") :=
  ⟨(is_on_pass_through devEx "missing" (Value.int 0) sExConfig).1 (by decide),
   (is_on_pass_through devEx "ecoMode" (Value.int 0) sExConfig).2.1 (by decide),
   (is_on_pass_through devEx "ecoMode" (Value.int 0) sExConfig).2.2.2.1 (by decide),
   (is_on_pass_through devEx "ecoMode" (Value.int 0) sExConfig).2.2.2.2.2 (by decide) rfl⟩

/-- C9 witness: on the concrete appliance the kept `ecoMode` description is
in the `"AC"` table with its setting available, while a device of unknown
appliance type yields no entities. -/
theorem setup_filters_by_support_wit :
    ecoModeDesc ∈ (lookupA SWITCHES devEx.applianceType).getD []
    ∧ devEx.availableSettings.contains (String.append "settings." ecoModeDesc.key) = true
    ∧ switchSetupEntitiesFor devUnknown = [] :=
  ⟨((setup_filters_by_support devEx ecoModeDesc).1 (by decide)).1,
   ((setup_filters_by_support devEx ecoModeDesc).1 (by decide)).2.2.1 rfl,
   (setup_filters_by_support devUnknown ecoModeDesc).2 (by decide)⟩

/-- C10 witness: the entity is unavailable on the device whose
`remoteCtrValid` is `0`, and available on the device lacking
`remoteCtrValid` altogether. -/
theorem switch_available_conditions_wit :
    honSwitchAvailable true devEx "ecoMode" = some false
    ∧ honSwitchAvailable true devAvail "ecoMode" = some true :=
  ⟨(switch_available_conditions true devEx "ecoMode" (Value.int 0) sExSwitch).1
      (by decide) (by decide),
   (switch_available_conditions true devAvail "ecoMode" (Value.int 0) sExSwitch).2.2.2
      (by decide) rfl (by decide) (by decide) (by decide)⟩

/-- C3 witness: the frame part of the amended claim applied at `"WM"`. -/
theorem switches_static_except_wd_wit :
    lookupA SWITCHES "WM" = lookupA SWITCHES_init "WM"
    ∧ ((lookupA SWITCHES "WD").getD []).map (fun d => d.key)
      = ["active", "pause", "startProgram.delayStatus",
         "startProgram.haier_SoakPrewashSelection", "startProgram.prewash",
         "startProgram.permanentPressStatus", "startProgram.autoSoftenerStatus",
         "startProgram.autoDetergentStatus", "autoSoftenerStatus", "autoDetergentStatus",
         "startProgram.acquaplus", "startProgram.extraRinse1", "startProgram.extraRinse2",
         "startProgram.extraRinse3", "startProgram.goodNight", "startProgram.hygiene",
         "startProgram.anticrease", "startProgram.sterilizationStatus",
         "startProgram.tumblingStatus", "startProgram.antiCreaseTime"] :=
  switches_static_except_wd "WM" (by decide)

end HaierHon
